import Mathlib

/-!
Verification of the enclave key manager
(`src/cosmwasm/lib/wasmi-runtime/src/crypto/key_manager.rs`).

The Rust `Keychain` struct holds five optional pieces of key material.  Its
methods mutate `self` and return `Result` values.  We embed this shallowly:
a `Keychain` structure of five `Option` fields, and each method becomes a
function `Env → Keychain → ... → Keychain × Except Error Unit` (the returned
`Keychain` is the post-state of `self`; accessors take `&self` in Rust and so
are plain functions of the state that cannot modify it).

The external collaborators (the SGX sealed store, the randomness source, the
keyed derivation function and key-pair construction, all outside this file of
the repository) are collected in an `Env` record of explicit outcome
functions, as the spec describes them in its section 6.
-/

/-- Raw byte strings (Rust `[u8]` slices); each entry is meant as a byte. -/
abbrev Bytes := List Nat

/-- The root secret (Rust `Seed`, a 32-byte value; the width is irrelevant to
the control flow verified here, so bytes are kept abstract). -/
structure Seed where
  bytes : Bytes
deriving DecidableEq, Repr

/-- A symmetric key (Rust `AESKey`). -/
structure AESKey where
  bytes : Bytes
deriving DecidableEq, Repr

/-- An asymmetric key pair (Rust `KeyPair`); modelled by the bytes it was
built from, since only identity and presence matter to the key manager. -/
structure KeyPair where
  bytes : Bytes
deriving DecidableEq, Repr

/-- Rust `enclave_ffi_types::CryptoError` (the constructors used by the key
manager; `ParsingError` is the value every `get_*` accessor returns when the
requested field is not initialized). -/
inductive CryptoError where
  | ParsingError
  | KeyError
  | RandomError
deriving DecidableEq, Repr

/-- Rust `enclave_ffi_types::EnclaveError` (the constructors used here:
`FailedUnseal` is what `generate_consensus_master_keys` maps construction
failures to; `FailedSeal` stands for a sealed-store write failure). -/
inductive EnclaveError where
  | FailedUnseal
  | FailedSeal
deriving DecidableEq, Repr

/-- Modelled from the spec: the derivation tags
(`CONSENSUS_SEED_EXCHANGE_KEYPAIR_DERIVE_ORDER` and friends live in
`consts.rs`, which is not under `src/`).  The spec only requires them to be
distinct fixed `u32` constants, serialized big-endian before use. -/
def CONSENSUS_SEED_EXCHANGE_KEYPAIR_DERIVE_ORDER : Nat := 1

/-- Modelled from the spec: second fixed derivation tag (see
`CONSENSUS_SEED_EXCHANGE_KEYPAIR_DERIVE_ORDER`). -/
def CONSENSUS_IO_EXCHANGE_KEYPAIR_DERIVE_ORDER : Nat := 2

/-- Modelled from the spec: third fixed derivation tag (see
`CONSENSUS_SEED_EXCHANGE_KEYPAIR_DERIVE_ORDER`). -/
def CONSENSUS_STATE_IKM_DERIVE_ORDER : Nat := 3

/-- Rust `u32::to_be_bytes`. -/
def u32_to_be_bytes (n : Nat) : Bytes :=
  [n / 2 ^ 24 % 256, n / 2 ^ 16 % 256, n / 2 ^ 8 % 256, n % 256]

/-- Modelled from the spec: the external collaborators of the key manager
(sealed store and key primitives, spec section 6), given as explicit
outcomes.  `unseal_*` is the result of reading the fixed sealing path at
startup; `seal_*` the result of writing material to it;
`derive_key_from_this` is the keyed derivation function (deterministic per
the spec, hence a plain function of seed and tag bytes);
`keypair_new_from_slice` / `aeskey_new_from_slice` construct key types from
derived bytes (`KeyPair::new_from_slice` is fallible,
`AESKey::new_from_slice` is not); `seed_new` / `keypair_new` are the
randomness-backed generators `Seed::new` / `KeyPair::new`. -/
structure Env where
  unseal_consensus_seed : Except EnclaveError Seed
  unseal_registration_key : Except EnclaveError KeyPair
  seal_consensus_seed : Seed → Except EnclaveError Unit
  seal_registration_key : KeyPair → Except EnclaveError Unit
  seed_new : Except CryptoError Seed
  keypair_new : Except CryptoError KeyPair
  derive_key_from_this : Seed → Bytes → Bytes
  keypair_new_from_slice : Bytes → Except CryptoError KeyPair
  aeskey_new_from_slice : Bytes → AESKey

/-- The Rust `Keychain` struct: five optional pieces of key material. -/
structure Keychain where
  consensus_seed : Option Seed
  consensus_state_ikm : Option AESKey
  consensus_seed_exchange_keypair : Option KeyPair
  consensus_io_exchange_keypair : Option KeyPair
  registration_key : Option KeyPair
deriving DecidableEq, Repr

/-- `Keychain::is_registration_key_set`. -/
def is_registration_key_set (kc : Keychain) : Bool :=
  kc.registration_key.isSome

/-- `Keychain::is_consensus_state_ikm_set`. -/
def is_consensus_state_ikm_set (kc : Keychain) : Bool :=
  kc.consensus_state_ikm.isSome

/-- `Keychain::is_consensus_seed_exchange_keypair_set`. -/
def is_consensus_seed_exchange_keypair_set (kc : Keychain) : Bool :=
  kc.consensus_seed_exchange_keypair.isSome

/-- `Keychain::is_consensus_io_exchange_keypair_set`. -/
def is_consensus_io_exchange_keypair_set (kc : Keychain) : Bool :=
  kc.consensus_io_exchange_keypair.isSome

/-- `Keychain::is_consensus_seed_set`. -/
def is_consensus_seed_set (kc : Keychain) : Bool :=
  kc.consensus_seed.isSome

/-- `Keychain::get_consensus_state_ikm`: `Ok(copy)` when the field is set,
otherwise `Err(CryptoError::ParsingError)` (Rust tests `is_some` then
`unwrap`s, which is this match). -/
def get_consensus_state_ikm (kc : Keychain) : Except CryptoError AESKey :=
  match kc.consensus_state_ikm with
  | some k => .ok k
  | none => .error .ParsingError

/-- `Keychain::get_consensus_seed`. -/
def get_consensus_seed (kc : Keychain) : Except CryptoError Seed :=
  match kc.consensus_seed with
  | some k => .ok k
  | none => .error .ParsingError

/-- `Keychain::seed_exchange_key` (the accessor for
`consensus_seed_exchange_keypair`; returns a clone). -/
def seed_exchange_key (kc : Keychain) : Except CryptoError KeyPair :=
  match kc.consensus_seed_exchange_keypair with
  | some k => .ok k
  | none => .error .ParsingError

/-- `Keychain::get_consensus_io_exchange_keypair`. -/
def get_consensus_io_exchange_keypair (kc : Keychain) : Except CryptoError KeyPair :=
  match kc.consensus_io_exchange_keypair with
  | some k => .ok k
  | none => .error .ParsingError

/-- `Keychain::get_registration_key`. -/
def get_registration_key (kc : Keychain) : Except CryptoError KeyPair :=
  match kc.registration_key with
  | some k => .ok k
  | none => .error .ParsingError

/-- `Keychain::set_registration_key`: seal first; only on seal success commit
the key pair to the in-memory field.  The post-state is the first component,
the Rust return value the second. -/
def set_registration_key (env : Env) (kc : Keychain) (kp : KeyPair) :
    Keychain × Except EnclaveError Unit :=
  match env.seal_registration_key kp with
  | .error e => (kc, .error e)
  | .ok _ => ({ kc with registration_key := some kp }, .ok ())

/-- `Keychain::set_consensus_seed`: seal first; only on seal success commit
the seed to the in-memory field. -/
def set_consensus_seed (env : Env) (kc : Keychain) (consensus_seed : Seed) :
    Keychain × Except EnclaveError Unit :=
  match env.seal_consensus_seed consensus_seed with
  | .error e => (kc, .error e)
  | .ok _ => ({ kc with consensus_seed := some consensus_seed }, .ok ())

/-- `Keychain::set_consensus_seed_exchange_keypair` (in-memory only). -/
def set_consensus_seed_exchange_keypair (kc : Keychain) (kp : KeyPair) : Keychain :=
  { kc with consensus_seed_exchange_keypair := some kp }

/-- `Keychain::set_consensus_io_exchange_keypair` (in-memory only). -/
def set_consensus_io_exchange_keypair (kc : Keychain) (kp : KeyPair) : Keychain :=
  { kc with consensus_io_exchange_keypair := some kp }

/-- `Keychain::set_consensus_state_ikm` (in-memory only). -/
def set_consensus_state_ikm (kc : Keychain) (ikm : AESKey) : Keychain :=
  { kc with consensus_state_ikm := some ikm }

/-- `Keychain::create_consensus_seed`: `Seed::new()`, then on success install
via `set_consensus_seed`, mapping a seal failure to `CryptoError::KeyError`;
a generation failure is returned as is. -/
def create_consensus_seed (env : Env) (kc : Keychain) :
    Keychain × Except CryptoError Unit :=
  match env.seed_new with
  | .ok seed =>
    let r := set_consensus_seed env kc seed
    match r.2 with
    | .error _ => (r.1, .error .KeyError)
    | .ok _ => (r.1, .ok ())
  | .error err => (kc, .error err)

/-- `Keychain::create_registration_key`: same shape as
`create_consensus_seed` for the registration key pair. -/
def create_registration_key (env : Env) (kc : Keychain) :
    Keychain × Except CryptoError Unit :=
  match env.keypair_new with
  | .ok key =>
    let r := set_registration_key env kc key
    match r.2 with
    | .error _ => (r.1, .error .KeyError)
    | .ok _ => (r.1, .ok ())
  | .error err => (kc, .error err)

/-- Bytes derived from the seed for the seed-exchange key pair (the first
derivation in `generate_consensus_master_keys`). -/
def seed_exchange_bytes (env : Env) (s : Seed) : Bytes :=
  env.derive_key_from_this s (u32_to_be_bytes CONSENSUS_SEED_EXCHANGE_KEYPAIR_DERIVE_ORDER)

/-- Bytes derived from the seed for the io-exchange key pair (the second
derivation in `generate_consensus_master_keys`). -/
def io_exchange_bytes (env : Env) (s : Seed) : Bytes :=
  env.derive_key_from_this s (u32_to_be_bytes CONSENSUS_IO_EXCHANGE_KEYPAIR_DERIVE_ORDER)

/-- Bytes derived from the seed for the state ikm (the third derivation in
`generate_consensus_master_keys`). -/
def state_ikm_bytes (env : Env) (s : Seed) : Bytes :=
  env.derive_key_from_this s (u32_to_be_bytes CONSENSUS_STATE_IKM_DERIVE_ORDER)

/-- `Keychain::generate_consensus_master_keys`: no-op returning `Ok` when the
seed is unset; otherwise derive and install the seed-exchange key pair, then
the io-exchange key pair, then the state ikm, in the source's order, mapping
each `KeyPair::new_from_slice` failure to `EnclaveError::FailedUnseal` and
returning early (so a failure after the first install leaves the later
fields untouched, exactly as the `?` operator does in the source). -/
def generate_consensus_master_keys (env : Env) (kc : Keychain) :
    Keychain × Except EnclaveError Unit :=
  match kc.consensus_seed with
  | none => (kc, .ok ())
  | some seed =>
    match env.keypair_new_from_slice (seed_exchange_bytes env seed) with
    | .error _ => (kc, .error .FailedUnseal)
    | .ok sx_kp =>
      let kc1 := set_consensus_seed_exchange_keypair kc sx_kp
      match env.keypair_new_from_slice (io_exchange_bytes env seed) with
      | .error _ => (kc1, .error .FailedUnseal)
      | .ok io_kp =>
        let kc2 := set_consensus_io_exchange_keypair kc1 io_kp
        let ikm := env.aeskey_new_from_slice (state_ikm_bytes env seed)
        (set_consensus_state_ikm kc2 ikm, .ok ())

/-- The `consensus_seed` loaded by `Keychain::new` (Rust matches the unseal
result, keeping `Ok` values and dropping errors). -/
def loaded_consensus_seed (env : Env) : Option Seed :=
  match env.unseal_consensus_seed with
  | .ok k => some k
  | .error _ => none

/-- The `registration_key` loaded by `Keychain::new`. -/
def loaded_registration_key (env : Env) : Option KeyPair :=
  match env.unseal_registration_key with
  | .ok k => some k
  | .error _ => none

/-- The `Keychain` value `x` that `Keychain::new` builds before running
derivation: unsealed seed and registration key, derived fields `None`. -/
def initial_keychain (env : Env) : Keychain :=
  { consensus_seed := loaded_consensus_seed env
    registration_key := loaded_registration_key env
    consensus_state_ikm := none
    consensus_seed_exchange_keypair := none
    consensus_io_exchange_keypair := none }

/-- `Keychain::new`: unseal the seed and the registration key independently
(each failure just leaves the field `None`), then immediately run
`generate_consensus_master_keys`, discarding its `Result` as the source
does. -/
def Keychain.new (env : Env) : Keychain :=
  (generate_consensus_master_keys env (initial_keychain env)).1

/-- One call of the public mutating API of the key manager, from pre-state to
post-state.  The in-memory setters for derived material are not steps of
their own: the spec designates them as internal to the derivation routine. -/
inductive Step : Keychain → Keychain → Prop where
  | set_seed (env : Env) (kc : Keychain) (s : Seed) :
      Step kc (set_consensus_seed env kc s).1
  | set_reg (env : Env) (kc : Keychain) (kp : KeyPair) :
      Step kc (set_registration_key env kc kp).1
  | create_seed (env : Env) (kc : Keychain) :
      Step kc (create_consensus_seed env kc).1
  | create_reg (env : Env) (kc : Keychain) :
      Step kc (create_registration_key env kc).1
  | generate (env : Env) (kc : Keychain) :
      Step kc (generate_consensus_master_keys env kc).1

/-- Keychain states reachable through the public API: some `Keychain::new`
followed by any sequence of mutating calls (each with its own environment
outcomes, since sealing may fail on one call and succeed on the next). -/
inductive Reachable : Keychain → Prop where
  | init (env : Env) : Reachable (Keychain.new env)
  | step {kc kc' : Keychain} : Reachable kc → Step kc kc' → Reachable kc'

/-! ### Helper lemmas shared by the claim theorems -/

/-- Full case analysis of `generate_consensus_master_keys`: either the seed
is unset and the call is a successful no-op, or the seed is `some s` and the
call stops at the first failing key-pair construction (leaving earlier
installs in place) or installs all three derived materials. -/
theorem generate_cases (env : Env) (kc : Keychain) :
    (kc.consensus_seed = none ∧ generate_consensus_master_keys env kc = (kc, .ok ())) ∨
    ∃ s, kc.consensus_seed = some s ∧
      ((∃ e, env.keypair_new_from_slice (seed_exchange_bytes env s) = .error e ∧
          generate_consensus_master_keys env kc = (kc, .error .FailedUnseal)) ∨
       ∃ sx, env.keypair_new_from_slice (seed_exchange_bytes env s) = .ok sx ∧
         ((∃ e, env.keypair_new_from_slice (io_exchange_bytes env s) = .error e ∧
             generate_consensus_master_keys env kc =
               (set_consensus_seed_exchange_keypair kc sx, .error .FailedUnseal)) ∨
          ∃ iok, env.keypair_new_from_slice (io_exchange_bytes env s) = .ok iok ∧
            generate_consensus_master_keys env kc =
              (set_consensus_state_ikm
                (set_consensus_io_exchange_keypair
                  (set_consensus_seed_exchange_keypair kc sx) iok)
                (env.aeskey_new_from_slice (state_ikm_bytes env s)), .ok ()))) := by
  cases hs : kc.consensus_seed with
  | none =>
    exact Or.inl ⟨rfl, by simp [generate_consensus_master_keys, hs]⟩
  | some s =>
    refine Or.inr ⟨s, rfl, ?_⟩
    cases h1 : env.keypair_new_from_slice (seed_exchange_bytes env s) with
    | error e =>
      exact Or.inl ⟨e, rfl, by simp [generate_consensus_master_keys, hs, h1]⟩
    | ok sx =>
      refine Or.inr ⟨sx, rfl, ?_⟩
      cases h2 : env.keypair_new_from_slice (io_exchange_bytes env s) with
      | error e =>
        exact Or.inl ⟨e, rfl, by simp [generate_consensus_master_keys, hs, h1, h2]⟩
      | ok iok =>
        exact Or.inr ⟨iok, rfl, by simp [generate_consensus_master_keys, hs, h1, h2]⟩

/-- Derivation never changes `consensus_seed`. -/
theorem generate_preserves_seed (env : Env) (kc : Keychain) :
    ((generate_consensus_master_keys env kc).1).consensus_seed = kc.consensus_seed := by
  rcases generate_cases env kc with ⟨_, heq⟩ | ⟨s, hs, hc⟩
  · rw [heq]
  · rcases hc with ⟨e, _, heq⟩ | ⟨sx, _, hc⟩
    · rw [heq]
    · rcases hc with ⟨e, _, heq⟩ | ⟨iok, _, heq⟩ <;>
        simp [heq, set_consensus_seed_exchange_keypair,
          set_consensus_io_exchange_keypair, set_consensus_state_ikm]

/-- Derivation never changes `registration_key`. -/
theorem generate_preserves_reg (env : Env) (kc : Keychain) :
    ((generate_consensus_master_keys env kc).1).registration_key = kc.registration_key := by
  rcases generate_cases env kc with ⟨_, heq⟩ | ⟨s, hs, hc⟩
  · rw [heq]
  · rcases hc with ⟨e, _, heq⟩ | ⟨sx, _, hc⟩
    · rw [heq]
    · rcases hc with ⟨e, _, heq⟩ | ⟨iok, _, heq⟩ <;>
        simp [heq, set_consensus_seed_exchange_keypair,
          set_consensus_io_exchange_keypair, set_consensus_state_ikm]

/-- The post-state of `set_consensus_seed` is the old state (seal failed) or
the old state with the seed replaced. -/
theorem set_consensus_seed_fst (env : Env) (kc : Keychain) (s : Seed) :
    (set_consensus_seed env kc s).1 = kc ∨
    (set_consensus_seed env kc s).1 = { kc with consensus_seed := some s } := by
  unfold set_consensus_seed
  cases env.seal_consensus_seed s <;> simp

/-- The post-state of `set_registration_key` is the old state (seal failed)
or the old state with the registration key replaced. -/
theorem set_registration_key_fst (env : Env) (kc : Keychain) (kp : KeyPair) :
    (set_registration_key env kc kp).1 = kc ∨
    (set_registration_key env kc kp).1 = { kc with registration_key := some kp } := by
  unfold set_registration_key
  cases env.seal_registration_key kp <;> simp

/-- The post-state of `create_consensus_seed` is the old state or the
post-state of some `set_consensus_seed` call. -/
theorem create_consensus_seed_fst (env : Env) (kc : Keychain) :
    (create_consensus_seed env kc).1 = kc ∨
    ∃ s, (create_consensus_seed env kc).1 = (set_consensus_seed env kc s).1 := by
  unfold create_consensus_seed
  cases hn : env.seed_new with
  | error err => simp
  | ok seed =>
    refine Or.inr ⟨seed, ?_⟩
    cases hr : (set_consensus_seed env kc seed).2 <;> simp [hr]

/-- The post-state of `create_registration_key` is the old state or the
post-state of some `set_registration_key` call. -/
theorem create_registration_key_fst (env : Env) (kc : Keychain) :
    (create_registration_key env kc).1 = kc ∨
    ∃ kp, (create_registration_key env kc).1 = (set_registration_key env kc kp).1 := by
  unfold create_registration_key
  cases hn : env.keypair_new with
  | error err => simp
  | ok key =>
    refine Or.inr ⟨key, ?_⟩
    cases hr : (set_registration_key env kc key).2 <;> simp [hr]

/-- The derived-material-implies-seed invariant is preserved by every step of
the public mutating API. -/
theorem step_preserves_derived_implies_seed {a b : Keychain} (hstep : Step a b)
    (ih : (a.consensus_state_ikm.isSome = true ∨
           a.consensus_seed_exchange_keypair.isSome = true ∨
           a.consensus_io_exchange_keypair.isSome = true) →
          a.consensus_seed.isSome = true) :
    (b.consensus_state_ikm.isSome = true ∨
     b.consensus_seed_exchange_keypair.isSome = true ∨
     b.consensus_io_exchange_keypair.isSome = true) →
    b.consensus_seed.isSome = true := by
  cases hstep with
  | set_seed env k s =>
    rcases set_consensus_seed_fst env a s with heq | heq <;> rw [heq]
    · exact ih
    · exact fun _ => rfl
  | set_reg env k kp =>
    rcases set_registration_key_fst env a kp with heq | heq <;> rw [heq]
    · exact ih
    · exact ih
  | create_seed env k =>
    rcases create_consensus_seed_fst env a with heq | ⟨s, heq⟩ <;> rw [heq]
    · exact ih
    · rcases set_consensus_seed_fst env a s with heq2 | heq2 <;> rw [heq2]
      · exact ih
      · exact fun _ => rfl
  | create_reg env k =>
    rcases create_registration_key_fst env a with heq | ⟨kp, heq⟩ <;> rw [heq]
    · exact ih
    · rcases set_registration_key_fst env a kp with heq2 | heq2 <;> rw [heq2]
      · exact ih
      · exact ih
  | generate env k =>
    rcases generate_cases env a with ⟨_, heq⟩ | ⟨s, hs, hc⟩
    · rw [heq]
      exact ih
    · rcases hc with ⟨e, _, heq⟩ | ⟨sx, _, hc⟩
      · rw [heq]
        exact ih
      · rcases hc with ⟨e, _, heq⟩ | ⟨iok, _, heq⟩ <;>
          · rw [heq]
            intro _
            simp [set_consensus_seed_exchange_keypair,
              set_consensus_io_exchange_keypair, set_consensus_state_ikm, hs]

/-- The reachability invariant behind the spec's "derived-iff-seed" claim:
in every reachable state, a set derived material implies a set seed (the
converse direction fails, see the C1 counterexample). -/
theorem reachable_derived_implies_seed (kc : Keychain) (h : Reachable kc) :
    (kc.consensus_state_ikm.isSome = true ∨
     kc.consensus_seed_exchange_keypair.isSome = true ∨
     kc.consensus_io_exchange_keypair.isSome = true) →
    kc.consensus_seed.isSome = true := by
  induction h with
  | init env =>
    show (Keychain.new env).consensus_state_ikm.isSome = true ∨ _ → _
    rw [Keychain.new]
    rcases generate_cases env (initial_keychain env) with ⟨_, heq⟩ | ⟨s, hs, hc⟩
    · rw [heq]
      simp [initial_keychain]
    · rcases hc with ⟨e, _, heq⟩ | ⟨sx, _, hc⟩
      · rw [heq]
        intro _
        simp only [hs, Option.isSome_some]
      · rcases hc with ⟨e, _, heq⟩ | ⟨iok, _, heq⟩ <;>
          · rw [heq]
            intro _
            simp [set_consensus_seed_exchange_keypair,
              set_consensus_io_exchange_keypair, set_consensus_state_ikm, hs]
  | step hr hstep ih =>
    exact step_preserves_derived_implies_seed hstep ih

/-! ### Concrete environments and states for witnesses and counterexamples -/

/-- The 32-byte seed of value 0x41 repeated (the spec's concrete test seed). -/
def seedA : Seed := ⟨List.replicate 32 65⟩

/-- A concrete key pair used as a registration key in witnesses. -/
def kpB : KeyPair := ⟨List.replicate 32 66⟩

/-- A concrete benign environment: nothing sealed yet, sealing and generation
succeed, derivation concatenates seed bytes with the tag bytes, and key-pair
construction accepts any bytes. -/
def okEnv : Env :=
  { unseal_consensus_seed := .error .FailedUnseal
    unseal_registration_key := .error .FailedUnseal
    seal_consensus_seed := fun _ => .ok ()
    seal_registration_key := fun _ => .ok ()
    seed_new := .ok seedA
    keypair_new := .ok kpB
    derive_key_from_this := fun s tag => s.bytes ++ tag
    keypair_new_from_slice := fun b => .ok ⟨b⟩
    aeskey_new_from_slice := fun b => ⟨b⟩ }

/-- `okEnv` with a failing sealed store. -/
def sealFailEnv : Env :=
  { okEnv with
    seal_consensus_seed := fun _ => .error .FailedSeal
    seal_registration_key := fun _ => .error .FailedSeal }

/-- `okEnv` with failing randomness. -/
def genFailEnv : Env :=
  { okEnv with
    seed_new := .error .RandomError
    keypair_new := .error .RandomError }

/-- `okEnv` with key-pair construction rejecting every byte string. -/
def kpFailEnv : Env :=
  { okEnv with keypair_new_from_slice := fun _ => .error .ParsingError }

/-- `okEnv` with key-pair construction accepting the seed-exchange bytes of
`seedA` but rejecting its io-exchange bytes, so derivation fails on the
second tag after the first install. -/
def ioFailEnv : Env :=
  { okEnv with
    keypair_new_from_slice := fun b =>
      if b = io_exchange_bytes okEnv seedA then .error .ParsingError
      else .ok ⟨b⟩ }

/-- `okEnv` with a sealed seed already present at startup. -/
def unsealOkEnv : Env :=
  { okEnv with unseal_consensus_seed := .ok seedA }

/-- The keychain of a fresh start with nothing sealed: every field `none`. -/
def kcEmpty : Keychain := Keychain.new okEnv

/-- `kcEmpty` after a successful `set_consensus_seed` that is not followed by
derivation: seed set, derived materials still unset. -/
def kcSeeded : Keychain := (set_consensus_seed okEnv kcEmpty seedA).1

/-- `kcSeeded` after a successful derivation: everything but the registration
key set. -/
def kcDerived : Keychain := (generate_consensus_master_keys okEnv kcSeeded).1

/-- A second concrete seed, distinct from `seedA`, used to replace an
installed seed in the C10 witness. -/
def seedB : Seed := ⟨List.replicate 32 67⟩

/-- `kcSeeded` is reachable: fresh start, then one successful
`set_consensus_seed` without a derivation call. -/
theorem reachable_kcSeeded : Reachable kcSeeded :=
  Reachable.step (Reachable.init okEnv) (Step.set_seed okEnv kcEmpty seedA)

/-- `kcDerived` is reachable: `kcSeeded` followed by one derivation call. -/
theorem reachable_kcDerived : Reachable kcDerived :=
  Reachable.step reachable_kcSeeded (Step.generate okEnv kcSeeded)

/-! ### Claim theorems -/

/-- C1 counterexample: the claim "for every reachable Keychain state, the
three derived materials are set iff the consensus seed is set" is false.
The state `kcSeeded` — a fresh keychain after one successful
`set_consensus_seed` with no derivation call — is reachable, has the seed
set, and has no derived material: `set_consensus_seed` does not re-derive. -/
theorem C1_counterexample :
    ¬ ∀ kc : Keychain, Reachable kc →
      (kc.consensus_seed.isSome = true ↔
        (kc.consensus_state_ikm.isSome = true ∧
         kc.consensus_seed_exchange_keypair.isSome = true ∧
         kc.consensus_io_exchange_keypair.isSome = true)) := by
  intro h
  have h2 := (h kcSeeded reachable_kcSeeded).mp rfl
  exact absurd h2.1 (by decide)

/-- C1 (amended): in every reachable state, any set derived material implies
the seed is set; and a successful `generate_consensus_master_keys` recomputes
all three derived materials together from the current seed.  The converse
direction of the original claim fails: after `set_consensus_seed` the seed
can be set (or replaced) while the derived materials stay unset (or stay
derived from the old seed) until `generate_consensus_master_keys` is called
again. -/
theorem C1_derived_only_with_seed :
    (∀ kc : Keychain, Reachable kc →
      (kc.consensus_state_ikm.isSome = true ∨
       kc.consensus_seed_exchange_keypair.isSome = true ∨
       kc.consensus_io_exchange_keypair.isSome = true) →
      kc.consensus_seed.isSome = true) ∧
    (∀ (env : Env) (kc : Keychain) (s : Seed),
      kc.consensus_seed = some s →
      (generate_consensus_master_keys env kc).2 = .ok () →
      ∃ sx iok,
        env.keypair_new_from_slice (seed_exchange_bytes env s) = .ok sx ∧
        env.keypair_new_from_slice (io_exchange_bytes env s) = .ok iok ∧
        (generate_consensus_master_keys env kc).1 =
          { kc with
              consensus_seed_exchange_keypair := some sx
              consensus_io_exchange_keypair := some iok
              consensus_state_ikm :=
                some (env.aeskey_new_from_slice (state_ikm_bytes env s)) }) := by
  constructor
  · exact reachable_derived_implies_seed
  · intro env kc s hs hok
    rcases generate_cases env kc with ⟨hn, heq⟩ | ⟨s2, hs2, hc⟩
    · rw [hn] at hs
      cases hs
    · rw [hs] at hs2
      cases hs2
      rcases hc with ⟨e, _, heq⟩ | ⟨sx, h1, hc⟩
      · rw [heq] at hok
        cases hok
      · rcases hc with ⟨e, _, heq⟩ | ⟨iok, h2, heq⟩
        · rw [heq] at hok
          cases hok
        · refine ⟨sx, iok, h1, h2, ?_⟩
          rw [heq]
          cases kc
          simp [set_consensus_seed_exchange_keypair,
            set_consensus_io_exchange_keypair, set_consensus_state_ikm]

/-- Witness for the amended C1: the reachable fully derived state has its
seed set, and the derivation on the just-seeded state produced exactly the
three materials derived from `seedA`. -/
theorem C1_derived_only_with_seed_witness :
    kcDerived.consensus_seed.isSome = true ∧
    ∃ sx iok,
      okEnv.keypair_new_from_slice (seed_exchange_bytes okEnv seedA) = .ok sx ∧
      okEnv.keypair_new_from_slice (io_exchange_bytes okEnv seedA) = .ok iok ∧
      (generate_consensus_master_keys okEnv kcSeeded).1 =
        { kcSeeded with
            consensus_seed_exchange_keypair := some sx
            consensus_io_exchange_keypair := some iok
            consensus_state_ikm :=
              some (okEnv.aeskey_new_from_slice (state_ikm_bytes okEnv seedA)) } :=
  ⟨C1_derived_only_with_seed.1 kcDerived reachable_kcDerived (Or.inl rfl),
   C1_derived_only_with_seed.2 okEnv kcSeeded seedA rfl rfl⟩

/-- C2: `set_consensus_seed` seals first.  When sealing fails the call
returns exactly the seal error and the post-state is exactly the pre-state
(every field unchanged); only when sealing succeeds is the new seed
committed to memory, and then nothing else changes. -/
theorem C2_set_consensus_seed_seal_first :
    ∀ (env : Env) (kc : Keychain) (s : Seed),
      (∀ e, env.seal_consensus_seed s = .error e →
        set_consensus_seed env kc s = (kc, .error e)) ∧
      (env.seal_consensus_seed s = .ok () →
        set_consensus_seed env kc s =
          ({ kc with consensus_seed := some s }, .ok ())) := by
  intro env kc s
  constructor
  · intro e he
    simp [set_consensus_seed, he]
  · intro hok
    simp [set_consensus_seed, hok]

/-- Witness for C2: on the failing sealed store the empty keychain is
returned untouched with the seal error; on the working one the seed is
committed. -/
theorem C2_set_consensus_seed_seal_first_witness :
    set_consensus_seed sealFailEnv kcEmpty seedA = (kcEmpty, .error .FailedSeal) ∧
    set_consensus_seed okEnv kcEmpty seedA =
      ({ kcEmpty with consensus_seed := some seedA }, .ok ()) :=
  ⟨(C2_set_consensus_seed_seal_first sealFailEnv kcEmpty seedA).1 .FailedSeal rfl,
   (C2_set_consensus_seed_seal_first okEnv kcEmpty seedA).2 rfl⟩

/-- C3: a successful `set_consensus_seed` followed by a successful
`generate_consensus_master_keys` leaves the seed and all three derived
materials set; and in any reachable state whose seed is unset (no seed was
ever set, since no operation clears it) the three derived-material accessors
fail with the not-initialized error `CryptoError::ParsingError`. -/
theorem C3_provision_then_derive :
    (∀ (env : Env) (kc kc1 kc2 : Keychain) (s : Seed),
      set_consensus_seed env kc s = (kc1, .ok ()) →
      generate_consensus_master_keys env kc1 = (kc2, .ok ()) →
      is_consensus_seed_set kc2 = true ∧
      is_consensus_state_ikm_set kc2 = true ∧
      is_consensus_seed_exchange_keypair_set kc2 = true ∧
      is_consensus_io_exchange_keypair_set kc2 = true) ∧
    (∀ kc : Keychain, Reachable kc → kc.consensus_seed = none →
      get_consensus_state_ikm kc = .error .ParsingError ∧
      seed_exchange_key kc = .error .ParsingError ∧
      get_consensus_io_exchange_keypair kc = .error .ParsingError) := by
  constructor
  · intro env kc kc1 kc2 s hset hgen
    have hk1 : kc1.consensus_seed = some s := by
      unfold set_consensus_seed at hset
      cases hseal : env.seal_consensus_seed s with
      | error e =>
        rw [hseal] at hset
        simp at hset
      | ok u =>
        rw [hseal] at hset
        have := congrArg Prod.fst hset
        simp at this
        rw [← this]
    rcases generate_cases env kc1 with ⟨hn, heq⟩ | ⟨s2, hs2, hc⟩
    · rw [hn] at hk1
      cases hk1
    · rcases hc with ⟨e, _, heq⟩ | ⟨sx, h1, hc⟩
      · rw [heq] at hgen
        simp at hgen
      · rcases hc with ⟨e, _, heq⟩ | ⟨iok, h2, heq⟩
        · rw [heq] at hgen
          simp at hgen
        · rw [heq] at hgen
          have := congrArg Prod.fst hgen
          simp at this
          rw [← this]
          simp [is_consensus_seed_set, is_consensus_state_ikm_set,
            is_consensus_seed_exchange_keypair_set,
            is_consensus_io_exchange_keypair_set,
            set_consensus_seed_exchange_keypair,
            set_consensus_io_exchange_keypair, set_consensus_state_ikm, hs2]
  · intro kc hr hnone
    have hinv := reachable_derived_implies_seed kc hr
    have hikm : kc.consensus_state_ikm = none := by
      cases hx : kc.consensus_state_ikm with
      | none => rfl
      | some v =>
        have := hinv (Or.inl (by rw [hx]; rfl))
        rw [hnone] at this
        simp at this
    have hsx : kc.consensus_seed_exchange_keypair = none := by
      cases hx : kc.consensus_seed_exchange_keypair with
      | none => rfl
      | some v =>
        have := hinv (Or.inr (Or.inl (by rw [hx]; rfl)))
        rw [hnone] at this
        simp at this
    have hio : kc.consensus_io_exchange_keypair = none := by
      cases hx : kc.consensus_io_exchange_keypair with
      | none => rfl
      | some v =>
        have := hinv (Or.inr (Or.inr (by rw [hx]; rfl)))
        rw [hnone] at this
        simp at this
    exact ⟨by simp [get_consensus_state_ikm, hikm],
      by simp [seed_exchange_key, hsx],
      by simp [get_consensus_io_exchange_keypair, hio]⟩

/-- Witness for C3: the concrete provision-then-derive run ends fully set,
and on the reachable empty keychain all three accessors fail. -/
theorem C3_provision_then_derive_witness :
    (is_consensus_seed_set kcDerived = true ∧
     is_consensus_state_ikm_set kcDerived = true ∧
     is_consensus_seed_exchange_keypair_set kcDerived = true ∧
     is_consensus_io_exchange_keypair_set kcDerived = true) ∧
    (get_consensus_state_ikm kcEmpty = .error .ParsingError ∧
     seed_exchange_key kcEmpty = .error .ParsingError ∧
     get_consensus_io_exchange_keypair kcEmpty = .error .ParsingError) :=
  ⟨C3_provision_then_derive.1 okEnv kcEmpty kcSeeded kcDerived seedA rfl rfl,
   C3_provision_then_derive.2 kcEmpty (Reachable.init okEnv) rfl⟩

/-- C4: each accessor returns a copy of the requested key exactly when the
corresponding field is set, and otherwise fails with the not-initialized
error `CryptoError::ParsingError`.  Accessors are functions of the state
alone (Rust `&self`), so they cannot modify it. -/
theorem C4_accessors_characterized :
    ∀ kc : Keychain,
      (∀ s, get_consensus_seed kc = .ok s ↔ kc.consensus_seed = some s) ∧
      (get_consensus_seed kc = .error .ParsingError ↔ kc.consensus_seed = none) ∧
      (∀ k, get_consensus_state_ikm kc = .ok k ↔ kc.consensus_state_ikm = some k) ∧
      (get_consensus_state_ikm kc = .error .ParsingError ↔
        kc.consensus_state_ikm = none) ∧
      (∀ k, seed_exchange_key kc = .ok k ↔
        kc.consensus_seed_exchange_keypair = some k) ∧
      (seed_exchange_key kc = .error .ParsingError ↔
        kc.consensus_seed_exchange_keypair = none) ∧
      (∀ k, get_consensus_io_exchange_keypair kc = .ok k ↔
        kc.consensus_io_exchange_keypair = some k) ∧
      (get_consensus_io_exchange_keypair kc = .error .ParsingError ↔
        kc.consensus_io_exchange_keypair = none) ∧
      (∀ k, get_registration_key kc = .ok k ↔ kc.registration_key = some k) ∧
      (get_registration_key kc = .error .ParsingError ↔
        kc.registration_key = none) := by
  intro kc
  refine ⟨fun s => ?_, ?_, fun k => ?_, ?_, fun k => ?_, ?_, fun k => ?_, ?_,
    fun k => ?_, ?_⟩
  · cases hx : kc.consensus_seed <;> simp [get_consensus_seed, hx]
  · cases hx : kc.consensus_seed <;> simp [get_consensus_seed, hx]
  · cases hx : kc.consensus_state_ikm <;> simp [get_consensus_state_ikm, hx]
  · cases hx : kc.consensus_state_ikm <;> simp [get_consensus_state_ikm, hx]
  · cases hx : kc.consensus_seed_exchange_keypair <;> simp [seed_exchange_key, hx]
  · cases hx : kc.consensus_seed_exchange_keypair <;> simp [seed_exchange_key, hx]
  · cases hx : kc.consensus_io_exchange_keypair <;>
      simp [get_consensus_io_exchange_keypair, hx]
  · cases hx : kc.consensus_io_exchange_keypair <;>
      simp [get_consensus_io_exchange_keypair, hx]
  · cases hx : kc.registration_key <;> simp [get_registration_key, hx]
  · cases hx : kc.registration_key <;> simp [get_registration_key, hx]

/-- Witness for C4 at concrete states: a set field is returned as a copy and
an unset field reports the not-initialized error. -/
theorem C4_accessors_characterized_witness :
    get_consensus_seed kcDerived = .ok seedA ∧
    get_registration_key kcEmpty = .error .ParsingError :=
  ⟨((C4_accessors_characterized kcDerived).1 seedA).mpr rfl,
   (C4_accessors_characterized kcEmpty).2.2.2.2.2.2.2.2.2.mpr rfl⟩

/-- C5: with the consensus seed unset, `generate_consensus_master_keys`
returns success and leaves every field of the state unchanged. -/
theorem C5_generate_noop_without_seed :
    ∀ (env : Env) (kc : Keychain), kc.consensus_seed = none →
      generate_consensus_master_keys env kc = (kc, .ok ()) := by
  intro env kc h
  simp [generate_consensus_master_keys, h]

/-- Witness for C5 on the fresh empty keychain. -/
theorem C5_generate_noop_without_seed_witness :
    generate_consensus_master_keys okEnv kcEmpty = (kcEmpty, .ok ()) :=
  C5_generate_noop_without_seed okEnv kcEmpty rfl

/-- C6: derivation is a deterministic pure function of the seed and the
fixed tags.  Two states holding the same seed derive bit-identical materials
in all three fields (and succeed together), and re-running a successful
derivation leaves the state unchanged (idempotence). -/
theorem C6_derivation_deterministic_idempotent :
    ∀ (env : Env) (kc kc2 : Keychain) (s : Seed),
      kc.consensus_seed = some s → kc2.consensus_seed = some s →
      (generate_consensus_master_keys env kc).2 = .ok () →
      ((generate_consensus_master_keys env kc2).2 = .ok () ∧
       (generate_consensus_master_keys env kc2).1.consensus_state_ikm =
         (generate_consensus_master_keys env kc).1.consensus_state_ikm ∧
       (generate_consensus_master_keys env kc2).1.consensus_seed_exchange_keypair =
         (generate_consensus_master_keys env kc).1.consensus_seed_exchange_keypair ∧
       (generate_consensus_master_keys env kc2).1.consensus_io_exchange_keypair =
         (generate_consensus_master_keys env kc).1.consensus_io_exchange_keypair) ∧
      generate_consensus_master_keys env (generate_consensus_master_keys env kc).1 =
        ((generate_consensus_master_keys env kc).1, .ok ()) := by
  intro env kc kc2 s hs hs2 hok
  rcases generate_cases env kc with ⟨hn, heq⟩ | ⟨t, ht, hc⟩
  · rw [hn] at hs
    cases hs
  · rw [hs] at ht
    cases ht
    rcases hc with ⟨e, _, heq⟩ | ⟨sx, h1, hc⟩
    · rw [heq] at hok
      cases hok
    · rcases hc with ⟨e, _, heq⟩ | ⟨iok, h2, heq⟩
      · rw [heq] at hok
        cases hok
      · constructor
        · rcases generate_cases env kc2 with ⟨hn2, heq2⟩ | ⟨t2, ht2, hc2⟩
          · rw [hn2] at hs2
            cases hs2
          · rw [hs2] at ht2
            cases ht2
            rcases hc2 with ⟨e2, h1f, _⟩ | ⟨sx2, h1b, hc2⟩
            · rw [h1] at h1f
              cases h1f
            · rw [h1] at h1b
              injection h1b with h1b
              cases h1b
              rcases hc2 with ⟨e2, h2f, _⟩ | ⟨iok2, h2b, heq2⟩
              · rw [h2] at h2f
                cases h2f
              · rw [h2] at h2b
                injection h2b with h2b
                cases h2b
                rw [heq, heq2]
                cases kc
                cases kc2
                simp [set_consensus_seed_exchange_keypair,
                  set_consensus_io_exchange_keypair, set_consensus_state_ikm]
        · rw [heq]
          dsimp only
          rcases generate_cases env
              (set_consensus_state_ikm
                (set_consensus_io_exchange_keypair
                  (set_consensus_seed_exchange_keypair kc sx) iok)
                (env.aeskey_new_from_slice (state_ikm_bytes env s))) with
            ⟨hn3, heq3⟩ | ⟨t3, ht3, hc3⟩
          · simp only [set_consensus_seed_exchange_keypair,
              set_consensus_io_exchange_keypair, set_consensus_state_ikm] at hn3
            rw [hs] at hn3
            cases hn3
          · simp only [set_consensus_seed_exchange_keypair,
              set_consensus_io_exchange_keypair, set_consensus_state_ikm] at ht3
            rw [hs] at ht3
            injection ht3 with ht3
            cases ht3
            rcases hc3 with ⟨e3, h1f, _⟩ | ⟨sx3, h1b, hc3⟩
            · rw [h1] at h1f
              cases h1f
            · rw [h1] at h1b
              injection h1b with h1b
              cases h1b
              rcases hc3 with ⟨e3, h2f, _⟩ | ⟨iok3, h2b, heq3⟩
              · rw [h2] at h2f
                cases h2f
              · rw [h2] at h2b
                injection h2b with h2b
                cases h2b
                rw [heq3]
                simp [set_consensus_seed_exchange_keypair,
                  set_consensus_io_exchange_keypair, set_consensus_state_ikm]

/-- Witness for C6 at the concrete seeded state (run against itself). -/
theorem C6_derivation_deterministic_idempotent_witness :
    ((generate_consensus_master_keys okEnv kcSeeded).2 = .ok () ∧
     (generate_consensus_master_keys okEnv kcSeeded).1.consensus_state_ikm =
       (generate_consensus_master_keys okEnv kcSeeded).1.consensus_state_ikm ∧
     (generate_consensus_master_keys okEnv kcSeeded).1.consensus_seed_exchange_keypair =
       (generate_consensus_master_keys okEnv kcSeeded).1.consensus_seed_exchange_keypair ∧
     (generate_consensus_master_keys okEnv kcSeeded).1.consensus_io_exchange_keypair =
       (generate_consensus_master_keys okEnv kcSeeded).1.consensus_io_exchange_keypair) ∧
    generate_consensus_master_keys okEnv kcDerived = (kcDerived, .ok ()) :=
  C6_derivation_deterministic_idempotent okEnv kcSeeded kcSeeded seedA rfl rfl rfl

/-- C7: `create_consensus_seed` draws a fresh seed from `Seed::new` and, on
generation success, installs it through `set_consensus_seed` (committing the
seed exactly when sealing also succeeds, and reporting `KeyError` with the
state unchanged when sealing fails); a generation failure is returned as
that very error with the state unchanged. -/
theorem C7_create_consensus_seed :
    ∀ (env : Env) (kc : Keychain),
      (∀ e, env.seed_new = .error e →
        create_consensus_seed env kc = (kc, .error e)) ∧
      (∀ s, env.seed_new = .ok s →
        (env.seal_consensus_seed s = .ok () →
          create_consensus_seed env kc =
            ({ kc with consensus_seed := some s }, .ok ())) ∧
        (∀ e, env.seal_consensus_seed s = .error e →
          create_consensus_seed env kc = (kc, .error .KeyError))) := by
  intro env kc
  constructor
  · intro e he
    simp [create_consensus_seed, he]
  · intro s hs
    constructor
    · intro hseal
      simp [create_consensus_seed, hs, set_consensus_seed, hseal]
    · intro e hseal
      simp [create_consensus_seed, hs, set_consensus_seed, hseal]

/-- Witness for C7 across the three concrete environments: failing
randomness, working store, failing store. -/
theorem C7_create_consensus_seed_witness :
    create_consensus_seed genFailEnv kcEmpty = (kcEmpty, .error .RandomError) ∧
    create_consensus_seed okEnv kcEmpty =
      ({ kcEmpty with consensus_seed := some seedA }, .ok ()) ∧
    create_consensus_seed sealFailEnv kcEmpty = (kcEmpty, .error .KeyError) :=
  ⟨(C7_create_consensus_seed genFailEnv kcEmpty).1 .RandomError rfl,
   ((C7_create_consensus_seed okEnv kcEmpty).2 seedA rfl).1 rfl,
   ((C7_create_consensus_seed sealFailEnv kcEmpty).2 seedA rfl).2 .FailedSeal rfl⟩

/-- C8: whenever key-pair construction from derived bytes fails on a
derivation tag, `generate_consensus_master_keys` on a seeded state returns
`Err(FailedUnseal)` — the failure is reported to the caller, never silently
swallowed.  A failure on the first (seed-exchange) tag leaves the state
bit-identical; a failure on the second (io-exchange) tag leaves the already
installed seed-exchange key pair but touches nothing else.  In both cases
the post-state still has the seed set while the state ikm and the
io-exchange key pair are exactly as before the call (unset or stale). -/
theorem C8_derivation_failure_reported :
    ∀ (env : Env) (kc : Keychain) (s : Seed),
      kc.consensus_seed = some s →
      (∀ e, env.keypair_new_from_slice (seed_exchange_bytes env s) = .error e →
        generate_consensus_master_keys env kc = (kc, .error .FailedUnseal)) ∧
      (∀ sx e,
        env.keypair_new_from_slice (seed_exchange_bytes env s) = .ok sx →
        env.keypair_new_from_slice (io_exchange_bytes env s) = .error e →
        generate_consensus_master_keys env kc =
          (set_consensus_seed_exchange_keypair kc sx, .error .FailedUnseal) ∧
        (generate_consensus_master_keys env kc).1.consensus_seed = some s ∧
        (generate_consensus_master_keys env kc).1.consensus_state_ikm =
          kc.consensus_state_ikm ∧
        (generate_consensus_master_keys env kc).1.consensus_io_exchange_keypair =
          kc.consensus_io_exchange_keypair) := by
  intro env kc s hs
  constructor
  · intro e h1
    simp [generate_consensus_master_keys, hs, h1]
  · intro sx e h1 h2
    refine ⟨?_, ?_, ?_, ?_⟩ <;>
      simp [generate_consensus_master_keys, hs, h1, h2,
        set_consensus_seed_exchange_keypair]

/-- Witness for C8 on both failure paths: with construction rejecting all
bytes, derivation on the seeded state fails on the first tag and returns the
state untouched with `FailedUnseal`; with construction rejecting only the
io-exchange bytes, derivation fails on the second tag, returns
`FailedUnseal`, and keeps seed, ikm and io-exchange fields as they were. -/
theorem C8_derivation_failure_reported_witness :
    generate_consensus_master_keys kpFailEnv kcSeeded =
      (kcSeeded, .error .FailedUnseal) ∧
    (generate_consensus_master_keys ioFailEnv kcSeeded =
        (set_consensus_seed_exchange_keypair kcSeeded
          ⟨seed_exchange_bytes ioFailEnv seedA⟩, .error .FailedUnseal) ∧
      (generate_consensus_master_keys ioFailEnv kcSeeded).1.consensus_seed =
        some seedA ∧
      (generate_consensus_master_keys ioFailEnv kcSeeded).1.consensus_state_ikm =
        kcSeeded.consensus_state_ikm ∧
      (generate_consensus_master_keys ioFailEnv kcSeeded).1.consensus_io_exchange_keypair =
        kcSeeded.consensus_io_exchange_keypair) :=
  ⟨(C8_derivation_failure_reported kpFailEnv kcSeeded seedA rfl).1
      .ParsingError rfl,
   (C8_derivation_failure_reported ioFailEnv kcSeeded seedA rfl).2
      ⟨seed_exchange_bytes ioFailEnv seedA⟩ .ParsingError rfl rfl⟩

/-- C9: `Keychain::new` is total (this function always returns a keychain;
unseal failures only leave a field unset).  The returned state holds exactly
the unsealed seed and registration key, derivation runs immediately on it:
with no sealed seed all three derived fields are unset and their accessors
fail with the not-initialized error, and with a sealed seed present the
returned state is the derivation result, fully set when derivation
succeeds. -/
theorem C9_initialization_never_fails :
    ∀ env : Env,
      (Keychain.new env).consensus_seed = loaded_consensus_seed env ∧
      (Keychain.new env).registration_key = loaded_registration_key env ∧
      (∀ e, env.unseal_consensus_seed = .error e →
        (Keychain.new env).consensus_state_ikm = none ∧
        (Keychain.new env).consensus_seed_exchange_keypair = none ∧
        (Keychain.new env).consensus_io_exchange_keypair = none ∧
        get_consensus_state_ikm (Keychain.new env) = .error .ParsingError ∧
        seed_exchange_key (Keychain.new env) = .error .ParsingError ∧
        get_consensus_io_exchange_keypair (Keychain.new env) =
          .error .ParsingError) ∧
      (∀ s, env.unseal_consensus_seed = .ok s →
        Keychain.new env =
          (generate_consensus_master_keys env (initial_keychain env)).1 ∧
        ((generate_consensus_master_keys env (initial_keychain env)).2 = .ok () →
          is_consensus_state_ikm_set (Keychain.new env) = true ∧
          is_consensus_seed_exchange_keypair_set (Keychain.new env) = true ∧
          is_consensus_io_exchange_keypair_set (Keychain.new env) = true)) := by
  intro env
  refine ⟨?_, ?_, ?_, ?_⟩
  · rw [Keychain.new, generate_preserves_seed]
    rfl
  · rw [Keychain.new, generate_preserves_reg]
    rfl
  · intro e he
    have hnone : (initial_keychain env).consensus_seed = none := by
      simp [initial_keychain, loaded_consensus_seed, he]
    have heq : Keychain.new env = initial_keychain env := by
      rw [Keychain.new, C5_generate_noop_without_seed env (initial_keychain env) hnone]
    rw [heq]
    exact ⟨rfl, rfl, rfl,
      by simp [get_consensus_state_ikm, initial_keychain],
      by simp [seed_exchange_key, initial_keychain],
      by simp [get_consensus_io_exchange_keypair, initial_keychain]⟩
  · intro s hsome
    refine ⟨rfl, ?_⟩
    intro hok
    have hseed : (initial_keychain env).consensus_seed = some s := by
      simp [initial_keychain, loaded_consensus_seed, hsome]
    rcases generate_cases env (initial_keychain env) with ⟨hn, heq⟩ | ⟨t, ht, hc⟩
    · rw [hn] at hseed
      cases hseed
    · rcases hc with ⟨e2, _, heq⟩ | ⟨sx, h1, hc⟩
      · rw [heq] at hok
        cases hok
      · rcases hc with ⟨e2, _, heq⟩ | ⟨iok, h2, heq⟩
        · rw [heq] at hok
          cases hok
        · have hnew : Keychain.new env =
              set_consensus_state_ikm
                (set_consensus_io_exchange_keypair
                  (set_consensus_seed_exchange_keypair (initial_keychain env) sx)
                  iok)
                (env.aeskey_new_from_slice (state_ikm_bytes env t)) := by
            rw [Keychain.new, heq]
          rw [hnew]
          refine ⟨?_, ?_, ?_⟩ <;>
            simp [is_consensus_state_ikm_set,
              is_consensus_seed_exchange_keypair_set,
              is_consensus_io_exchange_keypair_set,
              set_consensus_seed_exchange_keypair,
              set_consensus_io_exchange_keypair, set_consensus_state_ikm]

/-- Witness for C9: the environment with nothing sealed yields the fully
unset keychain whose accessors fail, and the environment with a sealed seed
yields a fully derived keychain. -/
theorem C9_initialization_never_fails_witness :
    ((Keychain.new okEnv).consensus_state_ikm = none ∧
     (Keychain.new okEnv).consensus_seed_exchange_keypair = none ∧
     (Keychain.new okEnv).consensus_io_exchange_keypair = none ∧
     get_consensus_state_ikm (Keychain.new okEnv) = .error .ParsingError ∧
     seed_exchange_key (Keychain.new okEnv) = .error .ParsingError ∧
     get_consensus_io_exchange_keypair (Keychain.new okEnv) =
       .error .ParsingError) ∧
    (is_consensus_state_ikm_set (Keychain.new unsealOkEnv) = true ∧
     is_consensus_seed_exchange_keypair_set (Keychain.new unsealOkEnv) = true ∧
     is_consensus_io_exchange_keypair_set (Keychain.new unsealOkEnv) = true) :=
  ⟨(C9_initialization_never_fails okEnv).2.2.1 .FailedUnseal rfl,
   ((C9_initialization_never_fails unsealOkEnv).2.2.2 seedA rfl).2 rfl⟩

/-- C10: on success `set_consensus_seed` changes only the `consensus_seed`
field and `set_registration_key` changes only the `registration_key` field;
in particular, after replacing the seed of a fully derived state the
derived-material accessors still answer from the old derivation until
`generate_consensus_master_keys` runs again. -/
theorem C10_setters_frame :
    ∀ (env : Env) (kc kc1 kc2 : Keychain) (s : Seed) (kp : KeyPair),
      (set_consensus_seed env kc s = (kc1, .ok ()) →
        kc1.consensus_seed = some s ∧
        kc1.consensus_state_ikm = kc.consensus_state_ikm ∧
        kc1.consensus_seed_exchange_keypair =
          kc.consensus_seed_exchange_keypair ∧
        kc1.consensus_io_exchange_keypair = kc.consensus_io_exchange_keypair ∧
        kc1.registration_key = kc.registration_key ∧
        get_consensus_state_ikm kc1 = get_consensus_state_ikm kc ∧
        seed_exchange_key kc1 = seed_exchange_key kc ∧
        get_consensus_io_exchange_keypair kc1 =
          get_consensus_io_exchange_keypair kc) ∧
      (set_registration_key env kc kp = (kc2, .ok ()) →
        kc2.registration_key = some kp ∧
        kc2.consensus_seed = kc.consensus_seed ∧
        kc2.consensus_state_ikm = kc.consensus_state_ikm ∧
        kc2.consensus_seed_exchange_keypair =
          kc.consensus_seed_exchange_keypair ∧
        kc2.consensus_io_exchange_keypair = kc.consensus_io_exchange_keypair) := by
  intro env kc kc1 kc2 s kp
  constructor
  · intro hset
    unfold set_consensus_seed at hset
    cases hseal : env.seal_consensus_seed s with
    | error e =>
      rw [hseal] at hset
      simp at hset
    | ok u =>
      rw [hseal] at hset
      have := congrArg Prod.fst hset
      simp at this
      rw [← this]
      exact ⟨rfl, rfl, rfl, rfl, rfl,
        by simp [get_consensus_state_ikm],
        by simp [seed_exchange_key],
        by simp [get_consensus_io_exchange_keypair]⟩
  · intro hset
    unfold set_registration_key at hset
    cases hseal : env.seal_registration_key kp with
    | error e =>
      rw [hseal] at hset
      simp at hset
    | ok u =>
      rw [hseal] at hset
      have := congrArg Prod.fst hset
      simp at this
      rw [← this]
      exact ⟨rfl, rfl, rfl, rfl, rfl⟩

/-- Witness for C10: replacing the seed of the fully derived state `kcDerived`
by `seedB` keeps every derived field (and its accessor output) from the old
seed, and installing a registration key touches nothing else. -/
theorem C10_setters_frame_witness :
    ((set_consensus_seed okEnv kcDerived seedB).1.consensus_seed = some seedB ∧
     (set_consensus_seed okEnv kcDerived seedB).1.consensus_state_ikm =
       kcDerived.consensus_state_ikm ∧
     (set_consensus_seed okEnv kcDerived seedB).1.consensus_seed_exchange_keypair =
       kcDerived.consensus_seed_exchange_keypair ∧
     (set_consensus_seed okEnv kcDerived seedB).1.consensus_io_exchange_keypair =
       kcDerived.consensus_io_exchange_keypair ∧
     (set_consensus_seed okEnv kcDerived seedB).1.registration_key =
       kcDerived.registration_key ∧
     get_consensus_state_ikm (set_consensus_seed okEnv kcDerived seedB).1 =
       get_consensus_state_ikm kcDerived ∧
     seed_exchange_key (set_consensus_seed okEnv kcDerived seedB).1 =
       seed_exchange_key kcDerived ∧
     get_consensus_io_exchange_keypair (set_consensus_seed okEnv kcDerived seedB).1 =
       get_consensus_io_exchange_keypair kcDerived) ∧
    ((set_registration_key okEnv kcDerived kpB).1.registration_key = some kpB ∧
     (set_registration_key okEnv kcDerived kpB).1.consensus_seed =
       kcDerived.consensus_seed ∧
     (set_registration_key okEnv kcDerived kpB).1.consensus_state_ikm =
       kcDerived.consensus_state_ikm ∧
     (set_registration_key okEnv kcDerived kpB).1.consensus_seed_exchange_keypair =
       kcDerived.consensus_seed_exchange_keypair ∧
     (set_registration_key okEnv kcDerived kpB).1.consensus_io_exchange_keypair =
       kcDerived.consensus_io_exchange_keypair) :=
  ⟨(C10_setters_frame okEnv kcDerived
      (set_consensus_seed okEnv kcDerived seedB).1
      (set_registration_key okEnv kcDerived kpB).1 seedB kpB).1 rfl,
   (C10_setters_frame okEnv kcDerived
      (set_consensus_seed okEnv kcDerived seedB).1
      (set_registration_key okEnv kcDerived kpB).1 seedB kpB).2 rfl⟩
